import Mathlib

/-
  Verification of the Sber transcription core of claude-telegram-bot.

  Shallow embedding of src/services/sber-transcription.ts (token cache,
  401-retry transcription protocol, ffmpeg-based audio conversion) and
  the transcribeVoice orchestration in src/utils.ts.

  Network and stream effects are modelled by explicit environment values
  describing what each external call would return; state (the token
  cache slot) is threaded explicitly; the number of OAuth and recognition
  requests issued is counted so that retry claims are expressible.
  JavaScript truthiness of the cached fields is modelled faithfully.
-/

namespace SberBot

/-- JavaScript truthiness for an optional string field: undefined, null
and the empty string are falsy. -/
def truthyStr : Option String → Bool
  | some s => s != ""
  | none => false

/-- JavaScript truthiness for an optional numeric field: undefined, null
and 0 are falsy. -/
def truthyInt : Option Int → Bool
  | some e => e != 0
  | none => false

/-- The mutable fields cachedToken and tokenExpiry of
SberTranscriptionService; tokenExpiry is milliseconds since the epoch. -/
structure TokenCache where
  cachedToken : Option String
  tokenExpiry : Option Int
deriving Repr, DecidableEq

/-- Outcome of the OAuth POST: a 2xx JSON body carrying an optional
access_token and optional expires_at, or a thrown axios error (transport
failure, timeout, or non-2xx status) carrying its message. -/
inductive OAuthOutcome where
  | response (access_token : Option String) (expires_at : Option Int)
  | failure (msg : String)
deriving Repr, DecidableEq

/-- The guard of the cached-token fast path:
cachedToken truthy, tokenExpiry truthy, and Date.now() < tokenExpiry - 300000. -/
def cacheHit (st : TokenCache) (now : Int) : Bool :=
  truthyStr st.cachedToken && truthyInt st.tokenExpiry &&
    (match st.tokenExpiry with
     | some e => decide (now < e - 300000)
     | none => false)

/-- The expiresIn computation: response.data.expires_at defaulted to 1800
by JavaScript disjunction (absent, null and 0 all fall back). -/
def expiresInOf : Option Int → Int
  | some v => if v = 0 then 1800 else v
  | none => 1800

/-- Result of one getAuthToken call: the returned token or the thrown
error message, the token cache afterwards, and how many OAuth network
requests were issued (0 or 1). -/
structure AuthOut where
  result : Except String String
  state : TokenCache
  oauthCalls : Nat
deriving Repr

/-- The network path of getAuthToken: issue the OAuth POST, store the
access token and computed expiry, and fail (wrapped by the catch block
into the Sber-authentication-failed message) when the response carries
no usable token or the request itself threw. -/
def fetchToken (st : TokenCache) (now : Int) (env : OAuthOutcome) : AuthOut :=
  match env with
  | .failure msg => ⟨.error ("Sber authentication failed: " ++ msg), st, 1⟩
  | .response tok ea =>
    let st2 : TokenCache := ⟨tok, some (now + expiresInOf ea * 1000)⟩
    if truthyStr tok then
      ⟨.ok (tok.getD ""), st2, 1⟩
    else
      ⟨.error ("Sber authentication failed: Failed to obtain access token"), st2, 1⟩

/-- getAuthToken: return the cached token when the fast-path guard holds,
otherwise fetch a fresh one over the network. -/
def getAuthToken (st : TokenCache) (now : Int) (env : OAuthOutcome) : AuthOut :=
  if cacheHit st now then
    ⟨.ok (st.cachedToken.getD ""), st, 0⟩
  else
    fetchToken st now env

/-- The result field of a 2xx recognition response: a string, an array of
strings, or anything else (absent, null, a number, ...). -/
inductive JsonResult where
  | str (s : String)
  | arr (xs : List String)
  | other
deriving Repr, DecidableEq

/-- Outcome of the recognition POST: a 2xx JSON body with a result field,
or a thrown axios error with an optional HTTP status (none models a
transport failure with no response). -/
inductive RecoOutcome where
  | response (result : JsonResult)
  | axiosErr (status : Option Nat) (msg : String)
deriving Repr, DecidableEq

/-- The text extraction switch of transcribeWithRetry: a string result is
taken as is, a non-empty array is joined with single spaces, anything
else leaves the text empty. -/
def textOfResult : JsonResult → String
  | .str s => s
  | .arr xs => if xs.length > 0 then String.intercalate " " xs else ""
  | .other => ""

/-- A text is blank when it is empty or consists of white space only,
which is exactly when JavaScript text.trim() has length 0. -/
def isBlank (t : String) : Bool :=
  t.toList.all (fun c => c.isWhitespace)

/-- The empty-or-whitespace check of transcribeWithRetry: a text that is
falsy (empty) or trims to the empty string is returned as the empty
string, any other text is returned as is. -/
def finalText (t : String) : String :=
  if isBlank t then "" else t

/-- An error caught by the catch block of transcribeWithRetry: an axios
error with its optional response status, or a plain Error (in this code
path, the one thrown by getAuthToken). -/
inductive CaughtErr where
  | axios (status : Option Nat) (msg : String)
  | plain (msg : String)
deriving Repr, DecidableEq

/-- The message of a caught error. -/
def CaughtErr.message : CaughtErr → String
  | .axios _ m => m
  | .plain m => m

/-- The 401 test of the catch block: axios.isAxiosError and
error.response.status === 401. -/
def CaughtErr.is401 : CaughtErr → Bool
  | .axios s _ => s == some 401
  | .plain _ => false

/-- Result of one attempt of transcribeWithRetry before its catch block
decides about retrying: the text or the caught error, the cache state,
and the OAuth and recognition request counts of this attempt. -/
structure AttemptOut where
  result : Except CaughtErr String
  state : TokenCache
  oauthCalls : Nat
  recoCalls : Nat
deriving Repr

/-- One attempt of transcribeWithRetry: obtain a token (its failure is
caught as a plain error with no recognition request made), then issue
the recognition POST and map its result field to text. -/
def runAttempt (st : TokenCache) (now : Int) (oauthEnv : OAuthOutcome)
    (recoEnv : RecoOutcome) : AttemptOut :=
  let a := getAuthToken st now oauthEnv
  match a.result with
  | .error m => ⟨.error (.plain m), a.state, a.oauthCalls, 0⟩
  | .ok _ =>
    match recoEnv with
    | .response r => ⟨.ok (finalText (textOfResult r)), a.state, a.oauthCalls, 1⟩
    | .axiosErr status m => ⟨.error (.axios status m), a.state, a.oauthCalls, 1⟩

/-- Environment of one transcribe call: the clock value and the outcomes
the OAuth and recognition endpoints would produce, for the first attempt
and for the retry. -/
structure TranscribeEnv where
  now1 : Int
  oauth1 : OAuthOutcome
  reco1 : RecoOutcome
  now2 : Int
  oauth2 : OAuthOutcome
  reco2 : RecoOutcome
deriving Repr, DecidableEq

/-- Result of a transcribe call: the returned text or the thrown error
message, the cache state afterwards, and total request counts. -/
structure TranscribeOut where
  result : Except String String
  state : TokenCache
  oauthCalls : Nat
  recoCalls : Nat
deriving Repr

/-- The wrapping applied by the catch block of transcribeWithRetry. -/
def wrapTranscribeErr (e : CaughtErr) : String :=
  "Sber transcription failed: " ++ e.message

/-- transcribe, i.e. transcribeWithRetry with isRetry = false: run the
first attempt; on a caught 401 clear both cache fields and run exactly
one further attempt whose caught errors are terminal; wrap any terminal
caught error into the Sber-transcription-failed message. -/
def transcribe (st : TokenCache) (env : TranscribeEnv) : TranscribeOut :=
  let a1 := runAttempt st env.now1 env.oauth1 env.reco1
  match a1.result with
  | .ok t => ⟨.ok t, a1.state, a1.oauthCalls, a1.recoCalls⟩
  | .error e =>
    if e.is401 then
      let a2 := runAttempt ⟨none, none⟩ env.now2 env.oauth2 env.reco2
      match a2.result with
      | .ok t =>
        ⟨.ok t, a2.state, a1.oauthCalls + a2.oauthCalls, a1.recoCalls + a2.recoCalls⟩
      | .error e2 =>
        ⟨.error (wrapTranscribeErr e2), a2.state,
          a1.oauthCalls + a2.oauthCalls, a1.recoCalls + a2.recoCalls⟩
    else
      ⟨.error (wrapTranscribeErr e), a1.state, a1.oauthCalls, a1.recoCalls⟩

/-- One event observed by the promise executor of convertOggToMp3: a data
chunk arriving on the output stream, an error event (from the ffmpeg
command when fromTranscoder is true, from the piped output stream
otherwise), or the end event signalling successful completion. -/
inductive StreamEvent where
  | chunk (bytes : List Nat)
  | errEv (fromTranscoder : Bool) (msg : String)
  | endEv
deriving Repr, DecidableEq

/-- The promise executor of convertOggToMp3 folded over the event
sequence: chunks accumulate in arrival order; the first terminal event
settles the promise (later events are ignored, as a settled promise
ignores further resolve and reject calls); no terminal event means the
promise never settles, returned as none. -/
def convertLoop (chunks : List (List Nat)) :
    List StreamEvent → Option (Except String (List Nat))
  | [] => none
  | .chunk c :: rest => convertLoop (chunks ++ [c]) rest
  | .endEv :: _ => some (.ok chunks.flatten)
  | .errEv ft m :: _ =>
    some (.error ((if ft then "Audio conversion failed: " else "Stream error: ") ++ m))

/-- convertOggToMp3: run the event sequence from an empty chunk list. -/
def convertOggToMp3 (events : List StreamEvent) : Option (Except String (List Nat)) :=
  convertLoop [] events

/-- The module-level service slots of utils.ts: the constructed
SberTranscriptionService carrying its client secret (none when not
constructed) and whether the AudioConverter was constructed. -/
structure Services where
  sberTranscription : Option String
  audioConverter : Bool
deriving Repr, DecidableEq

/-- The module initialisation of utils.ts: both services are constructed
exactly when SBER_CLIENT_SECRET is truthy and TRANSCRIPTION_AVAILABLE
holds. -/
def initServices (secret : Option String) (available : Bool) : Services :=
  if truthyStr secret && available then
    ⟨secret, true⟩
  else
    ⟨none, false⟩

/-- Environment of one transcribeVoice call: the outcome of reading the
OGG file, the transcoder event sequence, and the network environment of
the transcribe call. -/
structure VoiceEnv where
  fileRead : Except String (List Nat)
  convEvents : List StreamEvent
  tEnv : TranscribeEnv
deriving Repr

/-- Result of a transcribeVoice call: none when the call never settles
(the transcoder emitted no terminal event), some none when it resolves
to null, some (some t) when it resolves to the transcript t; plus the
cache state afterwards, whether a conversion was started, and the
network request counts. -/
structure VoiceOut where
  result : Option (Option String)
  state : TokenCache
  convAttempted : Bool
  oauthCalls : Nat
  recoCalls : Nat
deriving Repr

/-- transcribeVoice: return null when either service slot is missing;
otherwise read the file, convert, transcribe, and return the transcript,
with every thrown error of any stage caught and turned into null. -/
def transcribeVoice (svc : Services) (st : TokenCache) (env : VoiceEnv) : VoiceOut :=
  if svc.sberTranscription.isNone || !svc.audioConverter then
    ⟨some none, st, false, 0, 0⟩
  else
    match env.fileRead with
    | .error _ => ⟨some none, st, false, 0, 0⟩
    | .ok _ =>
      match convertOggToMp3 env.convEvents with
      | none => ⟨none, st, true, 0, 0⟩
      | some (.error _) => ⟨some none, st, true, 0, 0⟩
      | some (.ok _) =>
        let t := transcribe st env.tEnv
        match t.result with
        | .ok text => ⟨some (some text), t.state, true, t.oauthCalls, t.recoCalls⟩
        | .error _ => ⟨some none, t.state, true, t.oauthCalls, t.recoCalls⟩

/-- C2: whenever the cache holds a truthy token with a truthy expiry and
the current time is strictly before the expiry minus the 5 minute safety
margin, getAuthToken returns exactly the cached token string, leaves the
cache slot unchanged, and issues no OAuth network request, whatever the
OAuth endpoint would have answered. -/
theorem getAuthToken_cache_hit (s : String) (e now : Int) (env : OAuthOutcome)
    (hs : s ≠ "") (he : e ≠ 0) (hnow : now < e - 300000) :
    getAuthToken ⟨some s, some e⟩ now env = ⟨.ok s, ⟨some s, some e⟩, 0⟩ := by
  simp [getAuthToken, cacheHit, truthyStr, truthyInt, hs, he, hnow]

/-- Witness for C2 at a concrete cached state and clock value. -/
theorem getAuthToken_cache_hit_witness :
    getAuthToken ⟨some "tok", some 1000000⟩ 500000 (.failure "network down") =
      ⟨.ok "tok", ⟨some "tok", some 1000000⟩, 0⟩ :=
  getAuthToken_cache_hit "tok" 1000000 500000 (.failure "network down")
    (by decide) (by decide) (by decide)

/-- C3: on any call where the cached-token guard fails (empty cache, or a
token at or past its safety margin), getAuthToken issues exactly one
OAuth request; when that request succeeds with a usable token, the cache
slot is replaced by it and the expiry becomes now plus the server
provided lifetime in milliseconds, the lifetime defaulting to 1800
seconds when the response omits it. -/
theorem getAuthToken_refresh (st : TokenCache) (now : Int) (t : String)
    (ea : Option Int) (hmiss : cacheHit st now = false) (ht : t ≠ "") :
    getAuthToken st now (.response (some t) ea) =
        ⟨.ok t, ⟨some t, some (now + expiresInOf ea * 1000)⟩, 1⟩
    ∧ expiresInOf none = 1800 := by
  constructor
  · simp [getAuthToken, hmiss, fetchToken, truthyStr, ht]
  · rfl

/-- Witness for C3 at the empty cache and a concrete server lifetime. -/
theorem getAuthToken_refresh_witness :
    cacheHit ⟨none, none⟩ 0 = false ∧
    (getAuthToken ⟨none, none⟩ 0 (.response (some "fresh") (some 3600)) =
        ⟨.ok "fresh", ⟨some "fresh", some (0 + expiresInOf (some 3600) * 1000)⟩, 1⟩
      ∧ expiresInOf none = 1800) :=
  ⟨rfl, getAuthToken_refresh ⟨none, none⟩ 0 "fresh" (some 3600) rfl (by decide)⟩

/-- C5: when the cached-token guard fails, every failing acquisition
surfaces as the authentication error wrapping the underlying cause: a
transport, timeout or non-2xx failure keeps its message, and a 2xx
response without a usable access token fails with the
missing-token message; in each case exactly one OAuth request is made,
so the cache layer itself never retries. -/
theorem getAuthToken_failure (st : TokenCache) (now : Int)
    (hmiss : cacheHit st now = false) :
    (∀ msg, getAuthToken st now (.failure msg) =
        ⟨.error ("Sber authentication failed: " ++ msg), st, 1⟩)
    ∧ (∀ tok ea, truthyStr tok = false →
        getAuthToken st now (.response tok ea) =
          ⟨.error ("Sber authentication failed: Failed to obtain access token"),
            ⟨tok, some (now + expiresInOf ea * 1000)⟩, 1⟩) := by
  constructor
  · intro msg
    simp [getAuthToken, hmiss, fetchToken]
  · intro tok ea htok
    simp [getAuthToken, hmiss, fetchToken, htok]

/-- Witness for C5 at the empty cache and a concrete timeout message. -/
theorem getAuthToken_failure_witness :
    cacheHit ⟨none, none⟩ 0 = false ∧
    getAuthToken ⟨none, none⟩ 0 (.failure "timeout of 30000ms exceeded") =
      ⟨.error ("Sber authentication failed: " ++ "timeout of 30000ms exceeded"),
        ⟨none, none⟩, 1⟩ :=
  ⟨rfl, (getAuthToken_failure ⟨none, none⟩ 0 rfl).1 "timeout of 30000ms exceeded"⟩

/-- Any single attempt issues at most one recognition request. -/
theorem runAttempt_recoCalls_le_one (st : TokenCache) (now : Int)
    (oauthEnv : OAuthOutcome) (recoEnv : RecoOutcome) :
    (runAttempt st now oauthEnv recoEnv).recoCalls ≤ 1 := by
  cases h : (getAuthToken st now oauthEnv).result with
  | error m => simp [runAttempt, h]
  | ok t => cases recoEnv <;> simp [runAttempt, h]

/-- C1: every transcribe call makes at most two recognition attempts; a
401 on the first attempt (given that its token acquisition succeeded)
triggers exactly one retry that runs from the cleared cache, so the
retry issues one fresh OAuth request on top of whatever the first
attempt issued; if the retry receives a 200 response the second attempt
text is returned and the cache holds the freshly acquired token with its
fresh expiry; if the retry receives any error, 401 included, the call
fails with the wrapped transcription error after exactly two recognition
attempts, so no third attempt occurs. -/
theorem transcribe_401_retry :
    (∀ st env, (transcribe st env).recoCalls ≤ 2)
    ∧ (∀ st env tk m1, env.reco1 = .axiosErr (some 401) m1 →
        (getAuthToken st env.now1 env.oauth1).result = .ok tk →
        ((∀ t ea r, env.oauth2 = .response (some t) ea → t ≠ "" →
            env.reco2 = .response r →
            transcribe st env =
              ⟨.ok (finalText (textOfResult r)),
                ⟨some t, some (env.now2 + expiresInOf ea * 1000)⟩,
                (getAuthToken st env.now1 env.oauth1).oauthCalls + 1, 2⟩)
         ∧ (∀ t ea stat2 m2, env.oauth2 = .response (some t) ea → t ≠ "" →
              env.reco2 = .axiosErr stat2 m2 →
              transcribe st env =
                ⟨.error ("Sber transcription failed: " ++ m2),
                  ⟨some t, some (env.now2 + expiresInOf ea * 1000)⟩,
                  (getAuthToken st env.now1 env.oauth1).oauthCalls + 1, 2⟩))) := by
  constructor
  · intro st env
    have h1 := runAttempt_recoCalls_le_one st env.now1 env.oauth1 env.reco1
    have h2 := runAttempt_recoCalls_le_one ⟨none, none⟩ env.now2 env.oauth2 env.reco2
    simp only [transcribe]
    cases hr : (runAttempt st env.now1 env.oauth1 env.reco1).result with
    | ok t => simpa using h1.trans (by omega)
    | error e =>
      by_cases h4 : e.is401 = true
      · simp only [h4, if_true]
        cases hr2 : (runAttempt ⟨none, none⟩ env.now2 env.oauth2 env.reco2).result <;>
          simp only [] <;> omega
      · simp only [h4, if_false]
        simpa using h1.trans (by omega)
  · intro st env tk m1 hreco1 htk
    have hA1 : runAttempt st env.now1 env.oauth1 env.reco1 =
        ⟨.error (.axios (some 401) m1), (getAuthToken st env.now1 env.oauth1).state,
          (getAuthToken st env.now1 env.oauth1).oauthCalls, 1⟩ := by
      simp only [runAttempt, htk, hreco1]
    constructor
    · intro t ea r h2 ht hr2
      have hA2 : runAttempt ⟨none, none⟩ env.now2 env.oauth2 env.reco2 =
          ⟨.ok (finalText (textOfResult r)),
            ⟨some t, some (env.now2 + expiresInOf ea * 1000)⟩, 1, 1⟩ := by
        simp only [runAttempt, h2, hr2]
        simp [getAuthToken, cacheHit, truthyStr, fetchToken, ht]
      simp only [transcribe, hA1, hA2]
      simp [CaughtErr.is401]
    · intro t ea stat2 m2 h2 ht hr2
      have hA2 : runAttempt ⟨none, none⟩ env.now2 env.oauth2 env.reco2 =
          ⟨.error (.axios stat2 m2),
            ⟨some t, some (env.now2 + expiresInOf ea * 1000)⟩, 1, 1⟩ := by
        simp only [runAttempt, h2, hr2]
        simp [getAuthToken, cacheHit, truthyStr, fetchToken, ht]
      simp only [transcribe, hA1, hA2]
      simp [CaughtErr.is401, wrapTranscribeErr, CaughtErr.message]

/-- Witness for C1: a warm cache, a 401 on the first attempt, and a 200
with text on the retry; the retry issues the single fresh OAuth call. -/
theorem transcribe_401_retry_witness :
    (getAuthToken ⟨some "oldTok", some 1000000⟩ 0 (.failure "unused")).result =
        .ok "oldTok" ∧
    transcribe ⟨some "oldTok", some 1000000⟩
        ⟨0, .failure "unused", .axiosErr (some 401) "Request failed with status code 401",
          5000, .response (some "newTok") (some 1800), .response (.str "hello")⟩ =
      ⟨.ok (finalText (textOfResult (.str "hello"))),
        ⟨some "newTok", some (5000 + expiresInOf (some 1800) * 1000)⟩,
        (getAuthToken ⟨some "oldTok", some 1000000⟩ 0 (.failure "unused")).oauthCalls + 1,
        2⟩ :=
  ⟨rfl,
    (transcribe_401_retry.2 ⟨some "oldTok", some 1000000⟩
        ⟨0, .failure "unused", .axiosErr (some 401) "Request failed with status code 401",
          5000, .response (some "newTok") (some 1800), .response (.str "hello")⟩
        "oldTok" "Request failed with status code 401" rfl rfl).1
      "newTok" (some 1800) (.str "hello") rfl (by decide) rfl⟩

/-- C6: when the first attempt acquired a token and the recognition call
fails with any axios error whose status is not 401 (other non-2xx
statuses and transport failures without a status alike), transcribe
fails with the wrapped transcription error carrying the original cause
message, makes no further recognition attempt, and issues no further
OAuth request. -/
theorem transcribe_non401_not_retried (st : TokenCache) (env : TranscribeEnv)
    (tk m : String) (stat : Option Nat)
    (htk : (getAuthToken st env.now1 env.oauth1).result = .ok tk)
    (h1 : env.reco1 = .axiosErr stat m) (hs : stat ≠ some 401) :
    transcribe st env =
      ⟨.error ("Sber transcription failed: " ++ m),
        (getAuthToken st env.now1 env.oauth1).state,
        (getAuthToken st env.now1 env.oauth1).oauthCalls, 1⟩ := by
  have hA1 : runAttempt st env.now1 env.oauth1 env.reco1 =
      ⟨.error (.axios stat m), (getAuthToken st env.now1 env.oauth1).state,
        (getAuthToken st env.now1 env.oauth1).oauthCalls, 1⟩ := by
    simp only [runAttempt, htk, h1]
  have h401 : CaughtErr.is401 (.axios stat m) = false := by
    simp only [CaughtErr.is401]
    exact beq_eq_false_iff_ne.mpr hs
  simp only [transcribe, hA1, h401]
  simp [wrapTranscribeErr, CaughtErr.message]

/-- Witness for C6 at a concrete 500 response with a warm cache. -/
theorem transcribe_non401_not_retried_witness :
    (getAuthToken ⟨some "tok", some 1000000⟩ 0 (.failure "unused")).result = .ok "tok" ∧
    transcribe ⟨some "tok", some 1000000⟩
        ⟨0, .failure "unused", .axiosErr (some 500) "Request failed with status code 500",
          0, .failure "unused", .axiosErr none "unused"⟩ =
      ⟨.error ("Sber transcription failed: " ++ "Request failed with status code 500"),
        (getAuthToken ⟨some "tok", some 1000000⟩ 0 (.failure "unused")).state,
        (getAuthToken ⟨some "tok", some 1000000⟩ 0 (.failure "unused")).oauthCalls, 1⟩ :=
  ⟨rfl,
    transcribe_non401_not_retried ⟨some "tok", some 1000000⟩
      ⟨0, .failure "unused", .axiosErr (some 500) "Request failed with status code 500",
        0, .failure "unused", .axiosErr none "unused"⟩
      "tok" "Request failed with status code 500" (some 500) rfl rfl (by decide)⟩

/-- C4: given a 2xx recognition response, a string result yields that
string unless it is empty or white space only, in which case the empty
string is returned as a success; a non-empty array result yields its
elements joined with single spaces, again blanked to the empty string
when the join is empty or white space only; in particular the array
result hello, world yields the single string hello world. -/
theorem transcribe_result_mapping (st : TokenCache) (env : TranscribeEnv) (tk : String)
    (htk : (getAuthToken st env.now1 env.oauth1).result = .ok tk) :
    (∀ s, env.reco1 = .response (.str s) →
        (transcribe st env).result = .ok (if isBlank s then "" else s))
    ∧ (∀ xs, xs ≠ [] → env.reco1 = .response (.arr xs) →
        (transcribe st env).result =
          .ok (if isBlank (String.intercalate " " xs) then ""
               else String.intercalate " " xs))
    ∧ (env.reco1 = .response (.arr ["hello", "world"]) →
        (transcribe st env).result = .ok "hello world") := by
  have key : ∀ r, env.reco1 = .response r →
      (transcribe st env).result = .ok (finalText (textOfResult r)) := by
    intro r h1
    have hA1 : runAttempt st env.now1 env.oauth1 env.reco1 =
        ⟨.ok (finalText (textOfResult r)), (getAuthToken st env.now1 env.oauth1).state,
          (getAuthToken st env.now1 env.oauth1).oauthCalls, 1⟩ := by
      simp only [runAttempt, htk, h1]
    simp only [transcribe, hA1]
  refine ⟨?_, ?_, ?_⟩
  · intro s h1
    simpa [finalText, textOfResult] using key (.str s) h1
  · intro xs hxs h1
    have := key (.arr xs) h1
    simpa [finalText, textOfResult, List.length_pos, hxs] using this
  · intro h1
    simpa [finalText, textOfResult, isBlank] using key (.arr ["hello", "world"]) h1

/-- Witness for C4 on the array result hello, world with a warm cache. -/
theorem transcribe_result_mapping_witness :
    (getAuthToken ⟨some "tok", some 1000000⟩ 0 (.failure "unused")).result = .ok "tok" ∧
    (transcribe ⟨some "tok", some 1000000⟩
        ⟨0, .failure "unused", .response (.arr ["hello", "world"]),
          0, .failure "unused", .axiosErr none "unused"⟩).result = .ok "hello world" :=
  ⟨rfl,
    (transcribe_result_mapping ⟨some "tok", some 1000000⟩
        ⟨0, .failure "unused", .response (.arr ["hello", "world"]),
          0, .failure "unused", .axiosErr none "unused"⟩ "tok" rfl).2.2 rfl⟩

/-- C10: given a 2xx recognition response whose result field is neither a
string nor a non-empty array (absent, null, a number, or an empty
array), transcribe succeeds with the empty string. -/
theorem transcribe_degenerate_result (st : TokenCache) (env : TranscribeEnv) (tk : String)
    (htk : (getAuthToken st env.now1 env.oauth1).result = .ok tk) :
    (env.reco1 = .response .other → (transcribe st env).result = .ok "")
    ∧ (env.reco1 = .response (.arr []) → (transcribe st env).result = .ok "") := by
  have key : ∀ r, env.reco1 = .response r →
      (transcribe st env).result = .ok (finalText (textOfResult r)) := by
    intro r h1
    have hA1 : runAttempt st env.now1 env.oauth1 env.reco1 =
        ⟨.ok (finalText (textOfResult r)), (getAuthToken st env.now1 env.oauth1).state,
          (getAuthToken st env.now1 env.oauth1).oauthCalls, 1⟩ := by
      simp only [runAttempt, htk, h1]
    simp only [transcribe, hA1]
  refine ⟨?_, ?_⟩
  · intro h1
    simpa [finalText, textOfResult, isBlank] using key .other h1
  · intro h1
    simpa [finalText, textOfResult, isBlank] using key (.arr []) h1

/-- Witness for C10 on an absent result field with a warm cache. -/
theorem transcribe_degenerate_result_witness :
    (getAuthToken ⟨some "tok", some 1000000⟩ 0 (.failure "unused")).result = .ok "tok" ∧
    (transcribe ⟨some "tok", some 1000000⟩
        ⟨0, .failure "unused", .response .other,
          0, .failure "unused", .axiosErr none "unused"⟩).result = .ok "" :=
  ⟨rfl,
    (transcribe_degenerate_result ⟨some "tok", some 1000000⟩
        ⟨0, .failure "unused", .response .other,
          0, .failure "unused", .axiosErr none "unused"⟩ "tok" rfl).1 rfl⟩

/-- Data chunks arriving before any terminal event accumulate in arrival
order onto the chunk list. -/
theorem convertLoop_chunks (ds : List (List Nat)) :
    ∀ chunks evs, convertLoop chunks (ds.map StreamEvent.chunk ++ evs) =
      convertLoop (chunks ++ ds) evs := by
  induction ds with
  | nil => intro chunks evs; simp
  | cons d ds ih =>
    intro chunks evs
    calc convertLoop chunks (List.map StreamEvent.chunk (d :: ds) ++ evs)
        = convertLoop (chunks ++ [d]) (List.map StreamEvent.chunk ds ++ evs) := rfl
      _ = convertLoop ((chunks ++ [d]) ++ ds) evs := ih (chunks ++ [d]) evs
      _ = convertLoop (chunks ++ d :: ds) evs := by rw [List.append_assoc]; rfl

/-- C7: for any chunks delivered before the terminal event, successful
completion resolves with exactly their in-order concatenation, while an
error event from the transcoder or from the output stream rejects with
the correspondingly wrapped captured message and never resolves with a
buffer at all, so no partly accumulated output is ever returned. -/
theorem convertOggToMp3_events :
    (∀ (ds : List (List Nat)) (rest : List StreamEvent),
        convertOggToMp3 (List.map StreamEvent.chunk ds ++ StreamEvent.endEv :: rest) =
          some (.ok ds.flatten))
    ∧ (∀ (ds : List (List Nat)) (ft : Bool) (m : String) (rest : List StreamEvent),
        convertOggToMp3 (List.map StreamEvent.chunk ds ++ StreamEvent.errEv ft m :: rest) =
          some (.error ((if ft then "Audio conversion failed: " else "Stream error: ") ++ m)))
    ∧ (∀ (ds : List (List Nat)) (ft : Bool) (m : String) (rest : List StreamEvent)
        (b : List Nat),
        convertOggToMp3 (List.map StreamEvent.chunk ds ++ StreamEvent.errEv ft m :: rest) ≠
          some (.ok b)) := by
  refine ⟨?_, ?_, ?_⟩
  · intro ds rest
    simp [convertOggToMp3, convertLoop_chunks, convertLoop]
  · intro ds ft m rest
    simp [convertOggToMp3, convertLoop_chunks, convertLoop]
  · intro ds ft m rest b
    simp [convertOggToMp3, convertLoop_chunks, convertLoop]

/-- Witness for C7 at two concrete chunks followed by the end event, and
one chunk followed by a transcoder error. -/
theorem convertOggToMp3_events_witness :
    convertOggToMp3 [.chunk [1, 2], .chunk [3], .endEv] = some (.ok [1, 2, 3])
    ∧ convertOggToMp3 [.chunk [1, 2], .errEv true "boom"] =
        some (.error ((if true then "Audio conversion failed: " else "Stream error: ") ++ "boom"))
    ∧ convertOggToMp3 [.chunk [1, 2], .errEv true "boom"] ≠ some (.ok [1, 2]) := by
  refine ⟨?_, ?_, ?_⟩
  · have h := convertOggToMp3_events.1 [[1, 2], [3]] []
    simpa using h
  · have h := convertOggToMp3_events.2.1 [[1, 2]] true "boom" []
    simpa using h
  · have h := convertOggToMp3_events.2.2 [[1, 2]] true "boom" [] [1, 2]
    simpa using h

/-- C8: when the client secret is untruthy or the availability flag is
off, the module constructs neither the transcription service nor the
converter, and every transcribeVoice call resolves to null with no
conversion started and no OAuth or recognition request issued. -/
theorem transcription_disabled_inert (secret : Option String) (available : Bool)
    (h : truthyStr secret = false ∨ available = false) :
    initServices secret available = ⟨none, false⟩
    ∧ (∀ st env, transcribeVoice (initServices secret available) st env =
        ⟨some none, st, false, 0, 0⟩) := by
  have hinit : initServices secret available = ⟨none, false⟩ := by
    rcases h with h | h <;> simp [initServices, h]
  refine ⟨hinit, ?_⟩
  intro st env
  rw [hinit]
  simp [transcribeVoice]

/-- Witness for C8 with a present secret but the availability flag off. -/
theorem transcription_disabled_inert_witness :
    (truthyStr (some "secret") = false ∨ false = false) ∧
    (initServices (some "secret") false = ⟨none, false⟩
      ∧ transcribeVoice (initServices (some "secret") false) ⟨none, none⟩
          ⟨.ok [1], [.endEv], ⟨0, .failure "unused", .axiosErr none "unused",
            0, .failure "unused", .axiosErr none "unused"⟩⟩ =
          ⟨some none, ⟨none, none⟩, false, 0, 0⟩) :=
  ⟨Or.inr rfl,
    (transcription_disabled_inert (some "secret") false (Or.inr rfl)).1,
    (transcription_disabled_inert (some "secret") false (Or.inr rfl)).2 ⟨none, none⟩
      ⟨.ok [1], [.endEv], ⟨0, .failure "unused", .axiosErr none "unused",
        0, .failure "unused", .axiosErr none "unused"⟩⟩⟩

/-- C9: transcribeVoice resolves on every input on which the transcoder
settles, and always to either null or a transcript: a failed file read
resolves to null, a rejected conversion resolves to null, a failed
transcription (authentication and transcription errors alike, already
wrapped) resolves to null, and when every stage succeeds the call
resolves to the transcript. -/
theorem transcribeVoice_errors_to_null (svc : Services) (st : TokenCache) (env : VoiceEnv) :
    ((transcribeVoice svc st env).result = none →
        convertOggToMp3 env.convEvents = none)
    ∧ (∀ msg, env.fileRead = .error msg →
        (transcribeVoice svc st env).result = some none)
    ∧ (∀ msg, convertOggToMp3 env.convEvents = some (.error msg) →
        (transcribeVoice svc st env).result = some none)
    ∧ (∀ msg b, convertOggToMp3 env.convEvents = some (.ok b) →
        (transcribe st env.tEnv).result = .error msg →
        (transcribeVoice svc st env).result = some none)
    ∧ (∀ t b ogg sec, svc.sberTranscription = some sec → svc.audioConverter = true →
        env.fileRead = .ok ogg → convertOggToMp3 env.convEvents = some (.ok b) →
        (transcribe st env.tEnv).result = .ok t →
        (transcribeVoice svc st env).result = some (some t)) := by
  by_cases hoff : svc.sberTranscription.isNone || !svc.audioConverter
  · refine ⟨?_, ?_, ?_, ?_, ?_⟩
    · intro hnone
      rw [transcribeVoice, if_pos hoff] at hnone
      cases hnone
    · intro msg hmsg
      rw [transcribeVoice, if_pos hoff]
    · intro msg hmsg
      rw [transcribeVoice, if_pos hoff]
    · intro msg b hb hmsg
      rw [transcribeVoice, if_pos hoff]
    · intro t b ogg sec hsec hconv hogg hb ht
      rw [hsec, hconv] at hoff
      simp at hoff
  · refine ⟨?_, ?_, ?_, ?_, ?_⟩
    · intro hnone
      rw [transcribeVoice, if_neg hoff] at hnone
      cases hfile : env.fileRead with
      | error m => rw [hfile] at hnone; cases hnone
      | ok ogg =>
        rw [hfile] at hnone
        cases hconv : convertOggToMp3 env.convEvents with
        | none => rfl
        | some r =>
          rw [hconv] at hnone
          cases r with
          | error m => cases hnone
          | ok b =>
            cases ht : (transcribe st env.tEnv).result with
            | ok t => simp [ht] at hnone
            | error m => simp [ht] at hnone
    · intro msg hmsg
      rw [transcribeVoice, if_neg hoff, hmsg]
    · intro msg hmsg
      rw [transcribeVoice, if_neg hoff]
      cases hfile : env.fileRead with
      | error m => rfl
      | ok ogg => rw [hmsg]
    · intro msg b hb hmsg
      rw [transcribeVoice, if_neg hoff]
      cases hfile : env.fileRead with
      | error m => rfl
      | ok ogg => simp [hb, hmsg]
    · intro t b ogg sec hsec hconv hogg hb ht
      simp [transcribeVoice, hsec, hconv, hogg, hb, ht]

/-- Witness for C9: active services, successful read, conversion and
transcription, resolving to the transcript. -/
theorem transcribeVoice_errors_to_null_witness :
    (Services.mk (some "secret") true).sberTranscription = some "secret" ∧
    (transcribeVoice ⟨some "secret", true⟩ ⟨some "tok", some 1000000⟩
        ⟨.ok [7], [.chunk [1], .endEv],
          ⟨0, .failure "unused", .response (.str "hi"),
            0, .failure "unused", .axiosErr none "unused"⟩⟩).result = some (some "hi") :=
  ⟨rfl,
    (transcribeVoice_errors_to_null ⟨some "secret", true⟩ ⟨some "tok", some 1000000⟩
        ⟨.ok [7], [.chunk [1], .endEv],
          ⟨0, .failure "unused", .response (.str "hi"),
            0, .failure "unused", .axiosErr none "unused"⟩⟩).2.2.2.2
      "hi" [1] [7] "secret" rfl rfl rfl rfl rfl⟩

end SberBot
